import Mathlib

/-!
Verification of the pruda retrieval core and its Streamlit UI layer.

The repository ships the UI script `streamlit_app.py`; the retrieval core
(`EmbeddingsIndex`, `VectorIndex`, chunker, persistence) is consumed by the
UI through `build_index_from_chunks`, `load_index`, `save` and `query` but
its code is not part of the source tree, so the core is modelled from the
specification.  Machine floats are rendered as exact rationals; the spec
allows realising cosine similarity as an inner product over normalised
vectors, which the inner product `dot` below stands for.
-/

namespace Pruda

/-- Modelled from the spec: the error taxonomy of section 7 (the core's
`IOError` is named `IOFailure` here). -/
inductive Err where
  | EmptyInputError
  | DimensionMismatch
  | EmbeddingError
  | IOFailure
  | NotFoundError
  | CorruptDataError
  | StaleIndexError
  | InvalidArgument
  | IndexOutOfRange
deriving DecidableEq, Repr

/-- Modelled from the spec: a `VectorIndex` holds the inserted vectors in
insertion order, together with the fixed dimension `D` established by the
first insert (`none` before any vector has been inserted). -/
structure VectorIndex where
  dim : Option Nat
  vectors : List (List ℚ)
deriving DecidableEq, Repr

/-- The empty vector index. -/
def VectorIndex.empty : VectorIndex := ⟨none, []⟩

/-- Number of vectors currently held. -/
def VectorIndex.size (vi : VectorIndex) : Nat := vi.vectors.length

/-- Inner product of two vectors (the spec fixes cosine similarity,
"equivalently, normalize vectors and use inner product"). -/
def dot : List ℚ → List ℚ → ℚ
  | a :: as, b :: bs => a * b + dot as bs
  | _, _ => 0

/-- Modelled from the spec: `insert` appends a batch of vectors; it fails
with `DimensionMismatch` when any vector's length differs from the fixed
dimension `D` (established by the first insert), and commits the whole
batch or nothing. -/
def VectorIndex.insert (vi : VectorIndex) (vs : List (List ℚ)) :
    Except Err VectorIndex :=
  match vi.dim with
  | some d =>
      if vs.all (fun v => v.length == d) then
        .ok ⟨some d, vi.vectors ++ vs⟩
      else
        .error .DimensionMismatch
  | none =>
      match vs with
      | [] => .ok vi
      | v :: rest =>
          if rest.all (fun w => w.length == v.length) then
            .ok ⟨some v.length, vi.vectors ++ vs⟩
          else
            .error .DimensionMismatch

/-- Ranking order on scored hits `(insertion index, score)`: higher score
first, ties broken by lower insertion index. -/
def rankLE (a b : Nat × ℚ) : Prop :=
  b.2 < a.2 ∨ (a.2 = b.2 ∧ a.1 ≤ b.1)

instance : DecidableRel rankLE := fun a b => by
  unfold rankLE
  infer_instance

instance : IsTotal (Nat × ℚ) rankLE := by
  constructor
  intro a b
  rcases lt_trichotomy a.2 b.2 with h | h | h
  · exact Or.inr (Or.inl h)
  · rcases le_total a.1 b.1 with h1 | h1
    · exact Or.inl (Or.inr ⟨h, h1⟩)
    · exact Or.inr (Or.inr ⟨h.symm, h1⟩)
  · exact Or.inl (Or.inl h)

instance : IsTrans (Nat × ℚ) rankLE := by
  constructor
  intro a b c hab hbc
  rcases hab with h1 | ⟨h1, h1i⟩ <;> rcases hbc with h2 | ⟨h2, h2i⟩
  · exact Or.inl (h2.trans h1)
  · exact Or.inl (h2 ▸ h1)
  · exact Or.inl (h1 ▸ h2)
  · exact Or.inr ⟨h1.trans h2, h1i.trans h2i⟩

/-- Modelled from the spec: `search(q, k)` fails with `InvalidArgument`
when `k ≤ 0`; otherwise it scores every stored vector against the query,
sorts by decreasing similarity (ties to the earlier-inserted vector) and
returns the first `min(k, size())` hits as `(index, score)` pairs. -/
def VectorIndex.search (vi : VectorIndex) (q : List ℚ) (k : Int) :
    Except Err (List (Nat × ℚ)) :=
  if k ≤ 0 then
    .error .InvalidArgument
  else
    .ok ((List.insertionSort rankLE ((vi.vectors.map (dot q)).enum)).take k.toNat)

/-- A string is blank when it is empty or consists of whitespace only
(Python's `not s.strip()`). -/
def isBlank (s : String) : Bool := s.data.all (fun ch => ch.isWhitespace)

/-- Modelled from the spec: a passage candidate produced by the chunker /
OCR ingestion (`text`, `source`, character `offset`). -/
structure Chunk where
  text : String
  source : String
  offset : Nat
deriving DecidableEq, Repr

/-- Modelled from the spec: a passage record of the `PassageStore`
(dense 0-based `id`, `text`, `source`, `offset`). -/
structure Passage where
  id : Nat
  text : String
  source : String
  offset : Nat
deriving DecidableEq, Repr

/-- Modelled from the spec: `PassageStore.get` fails with `IndexOutOfRange`
when the index is at or past `size()`. -/
def passageGet (ps : List Passage) (i : Nat) : Except Err Passage :=
  match ps.get? i with
  | some p => .ok p
  | none => .error .IndexOutOfRange

/-- Modelled from the spec: the `EmbeddingsIndex` façade owns exactly one
`VectorIndex` and one `PassageStore` (the ordered passage list). -/
structure EmbeddingsIndex where
  vindex : VectorIndex
  passages : List Passage
deriving DecidableEq, Repr

/-- The lockstep invariant: `VectorIndex.size() == PassageStore.size()`. -/
def lockstep (emb : EmbeddingsIndex) : Prop :=
  emb.vindex.size = emb.passages.length

/-- Modelled from the spec: `build_from_chunks` drops empty/whitespace
candidates, fails with `EmptyInputError` when none remain, embeds the rest
and appends vectors and passages in lockstep, whole batch or nothing. -/
def build_from_chunks (embed : String → List ℚ) (chunks : List Chunk) :
    Except Err EmbeddingsIndex :=
  let kept := chunks.filter (fun c => !(isBlank c.text))
  if kept.isEmpty then
    .error .EmptyInputError
  else
    match VectorIndex.empty.insert (kept.map (fun c => embed c.text)) with
    | .error e => .error e
    | .ok vi => .ok ⟨vi, kept.enum.map (fun ic => ⟨ic.1, ic.2.text, ic.2.source, ic.2.offset⟩)⟩

/-- Modelled from the spec: the persisted vector-index artifact records the
dimension `D` and the vectors (hence the vector count). -/
structure IndexFile where
  dim : Option Nat
  vectors : List (List ℚ)
deriving DecidableEq, Repr

/-- Modelled from the spec: `save` serializes the `VectorIndex` to the index
artifact and the `PassageStore` to the passages artifact; it does not mutate
the in-memory index. -/
def EmbeddingsIndex.save (emb : EmbeddingsIndex) : IndexFile × List Passage :=
  (⟨emb.vindex.dim, emb.vindex.vectors⟩, emb.passages)

/-- Modelled from the spec: `load` fails with `NotFoundError` when either
artifact is missing, with `CorruptDataError` when the vector count in the
index file differs from the passage count, and otherwise rebuilds the
`EmbeddingsIndex`, fully replacing in-memory state. -/
def load_index_files (ifile : Option IndexFile) (pfile : Option (List Passage)) :
    Except Err EmbeddingsIndex :=
  match ifile, pfile with
  | some f, some ps =>
      if f.vectors.length = ps.length then
        .ok ⟨⟨f.dim, f.vectors⟩, ps⟩
      else
        .error .CorruptDataError
  | _, _ => .error .NotFoundError

/-- Modelled from the spec: `query` embeds the question, searches the vector
index and maps the resulting indices back through the passage store,
returning `(score, passage)` pairs in rank order. -/
def EmbeddingsIndex.query (emb : EmbeddingsIndex) (embed : String → List ℚ)
    (question : String) (top_k : Int) : Except Err (List (ℚ × Passage)) := do
  let hits ← emb.vindex.search (embed question) top_k
  hits.mapM (fun h => do
    let p ← passageGet emb.passages h.1
    pure (h.2, p))

/-- Offsets of the chunker's segments: starting at 0, advance by `step`
while the start position is still inside the document.  The fuel argument
is `len + 1`, enough for any positive `step`. -/
def chunkOffsetsGo (len step : Nat) : Nat → Nat → List Nat
  | 0, _ => []
  | fuel + 1, start =>
      if start < len then start :: chunkOffsetsGo len step fuel (start + step)
      else []

/-- Modelled from the spec: the chunker splits a document's text into
segments of at most `max_chunk_size` characters, consecutive segments of
the same document sharing `overlap` characters (`0 ≤ overlap <
max_chunk_size`, otherwise `InvalidArgument`); each segment is tagged with
the character offset where it begins, and the last segment may be shorter. -/
def chunk (text : List Char) (max_chunk_size overlap : Nat) :
    Except Err (List (Nat × List Char)) :=
  if 0 < max_chunk_size ∧ overlap < max_chunk_size then
    .ok ((chunkOffsetsGo text.length (max_chunk_size - overlap) (text.length + 1) 0).map
      (fun off => (off, (text.drop off).take max_chunk_size)))
  else
    .error .InvalidArgument

/-! ## UI layer, embedded from `src/streamlit_app.py` -/

/-- The Streamlit session-state fields touched by the index workflow
(`index_built`, `emb`, `num_passages`; lines 49-52 of the script). -/
structure SessionState where
  index_built : Bool
  emb : Option EmbeddingsIndex
  num_passages : Nat
deriving DecidableEq, Repr

/-- Initial session state (lines 49-52: `False`, `None`, `0`). -/
def initSession : SessionState := ⟨false, none, 0⟩

/-- A user-visible message emitted by the script (`st.error`, `st.success`,
`st.info`). -/
inductive UIMsg where
  | errorMsg (s : String)
  | successMsg (s : String)
  | infoMsg (s : String)
deriving DecidableEq, Repr

/-- Rendering of a raised exception into the message text interpolated by
the script (Python's `str(e)`). -/
def errMessage : Err → String
  | .EmptyInputError => "EmptyInputError"
  | .DimensionMismatch => "DimensionMismatch"
  | .EmbeddingError => "EmbeddingError"
  | .IOFailure => "IOError"
  | .NotFoundError => "NotFoundError"
  | .CorruptDataError => "CorruptDataError"
  | .StaleIndexError => "StaleIndexError"
  | .InvalidArgument => "InvalidArgument"
  | .IndexOutOfRange => "IndexOutOfRange"

/-- The `build_btn` handler (lines 55-72): runs only when files were
uploaded; an empty ingestion result reports "No text found" and leaves the
state alone; a successful build sets `index_built`, `emb` and
`num_passages` together; an exception aborts the run before any of the
three assignments execute. -/
def buildHandler (embed : String → List ℚ) (st : SessionState)
    (uploaded : Bool) (chunks_meta : List Chunk) : SessionState × List UIMsg :=
  if uploaded then
    if chunks_meta.isEmpty then
      (st, [.errorMsg "No text found in uploads."])
    else
      match build_from_chunks embed chunks_meta with
      | .ok emb =>
          (⟨true, some emb, emb.passages.length⟩,
           [.successMsg ("Built index with " ++ toString emb.passages.length ++ " passages.")])
      | .error _ => (st, [])
  else (st, [])

/-- The `load_btn` handler (lines 75-83): `load_index()` inside a
`try`; on success the three session fields are set together, on exception
the error is surfaced with `st.error` and no assignment has executed. -/
def loadHandler (st : SessionState) (r : Except Err EmbeddingsIndex) :
    SessionState × List UIMsg :=
  match r with
  | .ok emb =>
      (⟨true, some emb, emb.passages.length⟩,
       [.successMsg ("Loaded index with " ++ toString emb.passages.length ++ " passages.")])
  | .error e =>
      (st, [.errorMsg ("Failed to load index: " ++ errMessage e)])

/-- One script rerun, restricted to its effect on the session state.  Save,
ZIP and ask branches never assign the three fields (lines 85-160). -/
inductive UIEvent where
  | buildClick (uploaded : Bool) (chunks_meta : List Chunk)
  | loadClick (r : Except Err EmbeddingsIndex)
  | saveClick
  | zipClick
  | askClick (question : String) (rawTopK : Nat) (clientOk : Bool)

/-- Session-state transition of one rerun. -/
def uiStep (embed : String → List ℚ) (st : SessionState) : UIEvent → SessionState
  | .buildClick uploaded cm => (buildHandler embed st uploaded cm).1
  | .loadClick r => (loadHandler st r).1
  | _ => st

/-- Session states reachable from initialization under any sequence of
reruns. -/
inductive Reachable (embed : String → List ℚ) : SessionState → Prop where
  | init : Reachable embed initSession
  | next : ∀ st ev, Reachable embed st → Reachable embed (uiStep embed st ev)

/-- The `st.slider` widget with bounds `lo` and `hi` only ever yields a
value within those bounds; `raw` is the user's choice. -/
def sliderVal (lo hi raw : Nat) : Nat := max lo (min hi raw)

/-- The query call the ask branch issues, if any (lines 86 and 138-149):
`emb.query(question, top_k)` runs only when an index is in session, the
button was clicked, `question.strip()` is non-empty and the GENAI client
was created; `top_k` comes from the slider bounded to 1..8. -/
def askQueryCall (st : SessionState) (clicked : Bool) (question : String)
    (rawTopK : Nat) (clientOk : Bool) : Option (String × Int) :=
  if st.index_built ∧ st.emb.isSome ∧ clicked ∧ ¬ isBlank question ∧ clientOk then
    some (question, (sliderVal 1 8 rawTopK : Nat))
  else
    none

/-! ## Helper lemmas -/

/-- On a positive `k`, `search` succeeds with the sorted, truncated hits. -/
theorem search_ok_of_one_le (vi : VectorIndex) (q : List ℚ) (k : Int) (hk : 1 ≤ k) :
    vi.search q k =
      .ok ((List.insertionSort rankLE ((vi.vectors.map (dot q)).enum)).take k.toNat) := by
  unfold VectorIndex.search
  rw [if_neg (by omega)]

/-- The caller's view of a failed insert: on an exception the old index is
kept unchanged. -/
def insertOrKeep (vi : VectorIndex) (vs : List (List ℚ)) : VectorIndex :=
  match vi.insert vs with
  | .ok vi2 => vi2
  | .error _ => vi

/-! ## Claims about the vector index -/

/-- C1: for every index of size `n`, query vector `q` and integer `k ≥ 1`,
`search(q, k)` returns exactly `min(k, n)` results, sorted by
non-increasing similarity score (best match first). -/
theorem search_returns_min_results_sorted (vi : VectorIndex) (q : List ℚ)
    (k : Int) (hk : 1 ≤ k) :
    ∃ res, vi.search q k = .ok res ∧ res.length = min k.toNat vi.size ∧
      List.Sorted (fun a b : Nat × ℚ => b.2 ≤ a.2) res := by
  refine ⟨_, search_ok_of_one_le vi q k hk, ?_, ?_⟩
  · rw [List.length_take, List.length_insertionSort, List.enum_length, List.length_map]
    rfl
  · have hs : List.Sorted rankLE
        (List.insertionSort rankLE ((vi.vectors.map (dot q)).enum)) :=
      List.sorted_insertionSort rankLE _
    have ht := List.Pairwise.sublist (List.take_sublist k.toNat _) hs
    exact ht.imp (fun h => h.elim (fun h1 => h1.le) (fun h2 => le_of_eq h2.1.symm))

/-- Witness for C1 on a three-vector index with `k = 2`. -/
theorem search_returns_min_results_sorted_witness :
    ∃ res, VectorIndex.search ⟨some 2, [[1, 0], [0, 1], [1, 1]]⟩ [1, 0] 2 = .ok res ∧
      res.length = min (Int.toNat 2) (VectorIndex.size ⟨some 2, [[1, 0], [0, 1], [1, 1]]⟩) ∧
      List.Sorted (fun a b : Nat × ℚ => b.2 ≤ a.2) res :=
  search_returns_min_results_sorted ⟨some 2, [[1, 0], [0, 1], [1, 1]]⟩ [1, 0] 2 (by decide)

/-- C5: for every query vector and every `k ≥ 1`, `search` on an empty
index returns the empty result sequence rather than an error. -/
theorem empty_index_search_ok_nil (vi : VectorIndex) (q : List ℚ) (k : Int)
    (h0 : vi.size = 0) (hk : 1 ≤ k) : vi.search q k = .ok [] := by
  have hv : vi.vectors = [] := List.length_eq_zero.mp h0
  rw [search_ok_of_one_le vi q k hk, hv]
  simp

/-- Witness for C5 on the empty index with `k = 1`. -/
theorem empty_index_search_ok_nil_witness :
    VectorIndex.search VectorIndex.empty [1] 1 = .ok [] :=
  empty_index_search_ok_nil VectorIndex.empty [1] 1 rfl (by decide)

/-- C4: with an established dimension `D`, inserting a batch containing a
vector of a different length fails with `DimensionMismatch` and leaves the
index unchanged — same size, no partial insert. -/
theorem insert_wrong_dim_fails (vi : VectorIndex) (D : Nat) (vs : List (List ℚ))
    (v : List ℚ) (hd : vi.dim = some D) (hv : v ∈ vs) (hlen : v.length ≠ D) :
    vi.insert vs = .error .DimensionMismatch ∧
      (insertOrKeep vi vs).size = vi.size ∧ insertOrKeep vi vs = vi := by
  have hins : vi.insert vs = .error .DimensionMismatch := by
    simp only [VectorIndex.insert, hd]
    rw [if_neg]
    intro hall
    rw [List.all_eq_true] at hall
    have hveq := hall v hv
    simp only [beq_iff_eq] at hveq
    exact hlen hveq
  exact ⟨hins, by simp [insertOrKeep, hins], by simp [insertOrKeep, hins]⟩

/-- Witness for C4: a 2-dimensional index rejects a 3-long vector. -/
theorem insert_wrong_dim_fails_witness :
    VectorIndex.insert ⟨some 2, [[1, 0]]⟩ [[1, 2, 3]] = .error .DimensionMismatch ∧
      (insertOrKeep ⟨some 2, [[1, 0]]⟩ [[1, 2, 3]]).size =
        VectorIndex.size ⟨some 2, [[1, 0]]⟩ ∧
      insertOrKeep ⟨some 2, [[1, 0]]⟩ [[1, 2, 3]] = ⟨some 2, [[1, 0]]⟩ :=
  insert_wrong_dim_fails ⟨some 2, [[1, 0]]⟩ 2 [[1, 2, 3]] [1, 2, 3] rfl
    (by simp) (by decide)

/-- C6: whenever the vector count in the index file differs from the record
count in the passages file, `load` fails with `CorruptDataError`. -/
theorem load_count_mismatch_corrupt (f : IndexFile) (ps : List Passage)
    (h : f.vectors.length ≠ ps.length) :
    load_index_files (some f) (some ps) = .error .CorruptDataError := by
  simp only [load_index_files]
  rw [if_neg h]

/-- Witness for C6: an index file holding 4 vectors against a passages file
holding 5 records. -/
theorem load_count_mismatch_corrupt_witness :
    load_index_files (some ⟨some 1, [[1], [2], [3], [4]]⟩)
      (some [⟨0, "p0", "doc", 0⟩, ⟨1, "p1", "doc", 10⟩, ⟨2, "p2", "doc", 20⟩,
             ⟨3, "p3", "doc", 30⟩, ⟨4, "p4", "doc", 40⟩]) =
      .error .CorruptDataError :=
  load_count_mismatch_corrupt ⟨some 1, [[1], [2], [3], [4]]⟩
    [⟨0, "p0", "doc", 0⟩, ⟨1, "p1", "doc", 10⟩, ⟨2, "p2", "doc", 20⟩,
     ⟨3, "p3", "doc", 30⟩, ⟨4, "p4", "doc", 40⟩] (by decide)

/-- A successful insert grows the index by exactly the batch size. -/
theorem insert_ok_size (vi vi2 : VectorIndex) (vs : List (List ℚ))
    (h : vi.insert vs = .ok vi2) : vi2.size = vi.size + vs.length := by
  unfold VectorIndex.insert at h
  split at h
  · split_ifs at h
    cases h
    simp [VectorIndex.size]
  · split at h
    · cases h
      simp [VectorIndex.size]
    · split_ifs at h
      cases h
      simp [VectorIndex.size]

/-- A successful build yields a lockstep-aligned index. -/
theorem build_ok_lockstep (embed : String → List ℚ) (chunks : List Chunk)
    (emb : EmbeddingsIndex) (h : build_from_chunks embed chunks = .ok emb) :
    lockstep emb := by
  simp only [build_from_chunks] at h
  split_ifs at h
  split at h
  · cases h
  · rename_i vi heq
    cases h
    have hsz := insert_ok_size _ _ _ heq
    simp only [VectorIndex.empty, VectorIndex.size, List.length_nil, List.length_map,
      Nat.zero_add] at hsz
    simp [lockstep, VectorIndex.size, hsz, List.enum_length]

/-- A successful load yields a lockstep-aligned index. -/
theorem load_ok_lockstep (ifile : Option IndexFile) (pfile : Option (List Passage))
    (emb : EmbeddingsIndex) (h : load_index_files ifile pfile = .ok emb) :
    lockstep emb := by
  unfold load_index_files at h
  split at h
  · split_ifs at h with hc
    · cases h
      exact hc
  · cases h

/-- Loading what `save` wrote reconstructs the very same index. -/
theorem load_save_roundtrip (emb : EmbeddingsIndex) (h : lockstep emb) :
    load_index_files (some emb.save.1) (some emb.save.2) = .ok emb := by
  simp only [load_index_files, EmbeddingsIndex.save]
  rw [if_pos (show emb.vindex.vectors.length = emb.passages.length from h)]

/-- Shared concrete embedder for witnesses: every text maps to `[1]`. -/
def embedOne : String → List ℚ := fun _ => [1]

/-- Shared concrete chunk list for witnesses. -/
def chunksDemo : List Chunk := [⟨"a", "doc", 0⟩]

/-- Shared concrete index for witnesses: the build result on `chunksDemo`. -/
def embDemo : EmbeddingsIndex := ⟨⟨some 1, [[1]]⟩, [⟨0, "a", "doc", 0⟩]⟩

/-! ## Claims about the façade -/

/-- C2: for every index built from chunks, loading what `save` wrote yields
an index whose query results agree with the pre-save index for every
question and `top_k` — same passages, same order, same scores. -/
theorem roundtrip_query_identical (embed : String → List ℚ) (chunks : List Chunk)
    (emb : EmbeddingsIndex) (h : build_from_chunks embed chunks = .ok emb) :
    ∃ emb2, load_index_files (some emb.save.1) (some emb.save.2) = .ok emb2 ∧
      ∀ question top_k, emb2.query embed question top_k = emb.query embed question top_k :=
  ⟨emb, load_save_roundtrip emb (build_ok_lockstep embed chunks emb h), fun _ _ => rfl⟩

/-- Witness for C2 on a one-chunk build. -/
theorem roundtrip_query_identical_witness :
    ∃ emb2, load_index_files (some embDemo.save.1) (some embDemo.save.2) = .ok emb2 ∧
      ∀ question top_k,
        emb2.query embedOne question top_k = embDemo.query embedOne question top_k :=
  roundtrip_query_identical embedOne chunksDemo embDemo (by rfl)

/-- C3: the lockstep invariant `VectorIndex.size() == PassageStore.size()`
holds after every build, is what `save` persists (equal counts in the two
artifacts), and holds after every load. -/
theorem lockstep_after_build_save_load (embed : String → List ℚ) :
    (∀ chunks emb, build_from_chunks embed chunks = .ok emb → lockstep emb) ∧
    (∀ emb : EmbeddingsIndex, lockstep emb →
      emb.save.1.vectors.length = emb.save.2.length) ∧
    (∀ ifile pfile emb, load_index_files ifile pfile = .ok emb → lockstep emb) :=
  ⟨fun chunks emb h => build_ok_lockstep embed chunks emb h,
   fun _ h => h,
   fun ifile pfile emb h => load_ok_lockstep ifile pfile emb h⟩

/-- Witness for C3 on a one-chunk build. -/
theorem lockstep_after_build_save_load_witness : lockstep embDemo :=
  (lockstep_after_build_save_load embedOne).1 chunksDemo embDemo (by rfl)

/-! ## Claims about the chunker and the UI layer -/

set_option maxRecDepth 10000 in
/-- C7: chunking a 1000-character document with `max_chunk_size = 400` and
`overlap = 50` yields exactly 3 passages at offsets 0, 350 and 700, the
last segment being shorter than 400 (300 characters). -/
theorem chunk_1000_doc_offsets :
    (chunk (List.replicate 1000 'a') 400 50).map
      (fun segs => (segs.length, segs.map Prod.fst, segs.map (fun s => s.2.length))) =
      .ok (3, [0, 350, 700], [400, 400, 300]) := by
  rfl

/-- C8: when `load_index` raises, the `load_btn` handler surfaces the error
message and leaves the session state — `index_built`, `emb` and
`num_passages` — exactly as before the failed load. -/
theorem load_failure_preserves_session (st : SessionState) (e : Err) :
    (loadHandler st (.error e)).1 = st ∧
    (loadHandler st (.error e)).1.index_built = st.index_built ∧
    (loadHandler st (.error e)).1.emb = st.emb ∧
    (loadHandler st (.error e)).1.num_passages = st.num_passages ∧
    (loadHandler st (.error e)).2 = [.errorMsg ("Failed to load index: " ++ errMessage e)] :=
  ⟨rfl, rfl, rfl, rfl, rfl⟩

/-- One rerun either leaves the session state alone or installs a fresh
index, setting all three fields together. -/
theorem uiStep_cases (embed : String → List ℚ) (st : SessionState) (ev : UIEvent) :
    uiStep embed st ev = st ∨
      ∃ emb, uiStep embed st ev = ⟨true, some emb, emb.passages.length⟩ := by
  cases ev with
  | buildClick uploaded cm =>
    simp only [uiStep, buildHandler]
    by_cases hu : uploaded = true
    · by_cases hcm : cm.isEmpty = true
      · simp [hu, hcm]
      · rcases hb : build_from_chunks embed cm with e | emb2
        · simp [hu, hcm, hb]
        · exact Or.inr ⟨emb2, by simp [hu, hcm, hb]⟩
    · simp [hu]
  | loadClick r =>
    rcases r with e | emb2
    · exact Or.inl rfl
    · exact Or.inr ⟨emb2, rfl⟩
  | saveClick => exact Or.inl rfl
  | zipClick => exact Or.inl rfl
  | askClick q raw c => exact Or.inl rfl

/-- C9: in every reachable session state, `index_built = true` implies the
session holds an index and `num_passages` equals its passage count; the
initialization and both index-installing branches maintain this. -/
theorem session_state_invariant (embed : String → List ℚ) (st : SessionState)
    (h : Reachable embed st) (hb : st.index_built = true) :
    ∃ e, st.emb = some e ∧ st.num_passages = e.passages.length := by
  revert hb
  induction h with
  | init => intro hb; cases hb
  | next st0 ev hr ih =>
    intro hb
    rcases uiStep_cases embed st0 ev with he | ⟨emb2, he⟩
    · rw [he] at hb ⊢
      exact ih hb
    · rw [he]
      exact ⟨emb2, rfl, rfl⟩

/-- Witness for C9: the state reached by one successful load. -/
theorem session_state_invariant_witness :
    ∃ e, (uiStep embedOne initSession (.loadClick (.ok embDemo))).emb = some e ∧
      (uiStep embedOne initSession (.loadClick (.ok embDemo))).num_passages =
        e.passages.length :=
  session_state_invariant embedOne _
    (Reachable.next initSession (.loadClick (.ok embDemo)) Reachable.init) rfl

/-- C10: every query call the ask branch issues carries a non-blank
question (`question.strip()` non-empty) and a slider-bounded
`top_k` between 1 and 8; with such a `top_k`, `search`'s `k ≤ 0`
`InvalidArgument` branch is unreachable and search succeeds. -/
theorem ask_query_call_preconditions (st : SessionState) (clicked : Bool)
    (question : String) (rawTopK : Nat) (clientOk : Bool) (call : String × Int)
    (h : askQueryCall st clicked question rawTopK clientOk = some call) :
    ¬ isBlank call.1 ∧ 1 ≤ call.2 ∧ call.2 ≤ 8 ∧
      ∀ (vi : VectorIndex) (qv : List ℚ), ∃ res, vi.search qv call.2 = .ok res := by
  unfold askQueryCall at h
  split_ifs at h with hc
  · obtain ⟨h1, h2, h3, h4, h5⟩ := hc
    injection h with h0
    subst h0
    have hlo : 1 ≤ sliderVal 1 8 rawTopK := le_max_left _ _
    have hhi : sliderVal 1 8 rawTopK ≤ 8 := max_le (by norm_num) (min_le_left _ _)
    refine ⟨h4, ?_, ?_, ?_⟩
    · show (1 : Int) ≤ ((sliderVal 1 8 rawTopK : Nat) : Int)
      exact_mod_cast hlo
    · show ((sliderVal 1 8 rawTopK : Nat) : Int) ≤ 8
      exact_mod_cast hhi
    · intro vi qv
      refine ⟨_, search_ok_of_one_le vi qv _ ?_⟩
      show (1 : Int) ≤ ((sliderVal 1 8 rawTopK : Nat) : Int)
      exact_mod_cast hlo

/-- Witness for C10: a clicked ask with question "What is RAG?" and the
slider at 4. -/
theorem ask_query_call_preconditions_witness :
    ¬ isBlank (("What is RAG?", ((sliderVal 1 8 4 : Nat) : Int)) : String × Int).1 ∧
      1 ≤ (("What is RAG?", ((sliderVal 1 8 4 : Nat) : Int)) : String × Int).2 ∧
      (("What is RAG?", ((sliderVal 1 8 4 : Nat) : Int)) : String × Int).2 ≤ 8 ∧
      ∀ (vi : VectorIndex) (qv : List ℚ),
        ∃ res, vi.search qv (("What is RAG?", ((sliderVal 1 8 4 : Nat) : Int)) : String × Int).2 = .ok res :=
  ask_query_call_preconditions ⟨true, some embDemo, 1⟩ true "What is RAG?" 4 true
    ("What is RAG?", ((sliderVal 1 8 4 : Nat) : Int)) (by rfl)

end Pruda
